import Mathlib

/-!
Verification development for the veterinary-clinic record keeper
`oop04/oop_hw04.py`.

The Python data model is shallowly embedded: the three field descriptors
(`Name`, `Age`, `Phone`) become pure validators returning `Except`,
entities become structures, methods that mutate an object and may raise
become functions returning the pair (state after the call, raised error
or `none`) so that the raise-before-write behaviour of the descriptors
is captured exactly, and `pickle` persistence is modelled by an explicit
lossless encode/decode pair on a tree of pickleable values.

Python string predicates (`str.isdigit`, `str.strip`, `str.lower`) are
embedded by the corresponding character-level functions of Lean, which
agree with Python on the ASCII data the program manipulates.
-/

/-- Error values raised by the program.  Every raise site in the source
uses Python `ValueError`; the constructors split the raises by site,
keeping the exact message of the source: `validation` for the three
field descriptors, `conflict` for scheduling over a pending
appointment. -/
inductive PyError where
  | validation (msg : String)
  | conflict (msg : String)
deriving Repr, DecidableEq

/-- Message of the `Name` descriptor (line 18 of the source). -/
def nameErrMsg : String := "Имя должно быть строкой длиной не менее 2 символов"

/-- Message of the `Age` descriptor (line 35 of the source). -/
def ageErrMsg : String := "Возраст должен быть числом от 1 до 99"

/-- Message of the `Phone` descriptor (line 52 of the source). -/
def phoneErrMsg : String := "Номер телефона должен содержать от 10 до 11 цифр"

/-- Message of `Pet.add_appointment` (line 70 of the source). -/
def conflictErrMsg : String := "Прием уже запланирован"

/-- Model of Python `str.isdigit` on ASCII data: the string is nonempty
and every character is a decimal digit. -/
def pyIsDigit (s : String) : Bool :=
  s.length != 0 && s.data.all Char.isDigit

/-- Model of Python `str.strip` on ASCII data: drop whitespace from both
ends of the character sequence. -/
def pyStrip (s : String) : String :=
  ⟨((s.data.dropWhile Char.isWhitespace).reverse.dropWhile Char.isWhitespace).reverse⟩

/-- Model of Python `str.lower` on ASCII data: lowercase every
character. -/
def pyLower (s : String) : String :=
  ⟨s.data.map Char.toLower⟩

/-- Validation performed by `Name.__set__` (lines 16-19): the value must
be a string (static in this embedding) whose trimmed length is at
least 2; otherwise `ValueError` is raised. -/
def Name.set (value : String) : Except PyError String :=
  if (pyStrip value).length < 2 then
    .error (.validation nameErrMsg)
  else
    .ok value

/-- Validation performed by `Age.__set__` (lines 33-36): the value must
be an integer (static in this embedding) strictly between 0 and 100;
otherwise `ValueError` is raised. -/
def Age.set (value : Int) : Except PyError Int :=
  if ¬ (0 < value ∧ value < 100) then
    .error (.validation ageErrMsg)
  else
    .ok value

/-- Validation performed by `Phone.__set__` (lines 50-53): the value
must be a string (static in this embedding) that is all digits and of
length 10 to 11; otherwise `ValueError` is raised. -/
def Phone.set (value : String) : Except PyError String :=
  if ¬ pyIsDigit value ∨ ¬ (10 ≤ value.length ∧ value.length ≤ 11) then
    .error (.validation phoneErrMsg)
  else
    .ok value

/-- One entry of `Pet.past_appointments`: the dict
`{'date': ..., 'comment': ...}` built by `complete_appointment`.  The
date is the scheduled appointment at completion time, which can be
`None`. -/
structure AppointmentRecord where
  date : Option String
  comment : String
deriving Repr, DecidableEq

/-- State of a `Pet` instance (lines 56-82). -/
structure Pet where
  name : String
  age : Int
  scheduled_appointment : Option String
  past_appointments : List AppointmentRecord
deriving Repr, DecidableEq

/-- Constructor `Pet.__init__` (lines 61-65): assigns `name`, then
`age` through the descriptors (each may raise), then initialises
`scheduled_appointment = None` and `past_appointments = []`. -/
def Pet.new (name : String) (age : Int) : Except PyError Pet := do
  let n ← Name.set name
  let a ← Age.set age
  .ok ⟨n, a, none, []⟩

/-- Method `Pet.add_appointment` (lines 67-71): raises `ValueError` if
an appointment is already scheduled, leaving the pet unchanged;
otherwise stores the date.  The result is the pet state after the call
paired with the raised error, if any. -/
def Pet.add_appointment (p : Pet) (date : String) : Pet × Option PyError :=
  match p.scheduled_appointment with
  | some _ => (p, some (.conflict conflictErrMsg))
  | none => ({ p with scheduled_appointment := some date }, none)

/-- Method `Pet.complete_appointment` (lines 73-79): appends the record
`{'date': scheduled_appointment, 'comment': comment}` to the history
and sets `scheduled_appointment = None`.  It performs no check and
cannot raise. -/
def Pet.complete_appointment (p : Pet) (comment : String) : Pet :=
  { p with
    past_appointments :=
      p.past_appointments ++ [{ date := p.scheduled_appointment, comment := comment }],
    scheduled_appointment := none }

/-- Assignment `pet.name = value` on an existing instance: the `Name`
descriptor either stores the value or raises before writing, leaving
the pet unchanged. -/
def Pet.assignName (p : Pet) (value : String) : Pet × Option PyError :=
  match Name.set value with
  | .ok v => ({ p with name := v }, none)
  | .error e => (p, some e)

/-- Assignment `pet.age = value` on an existing instance: the `Age`
descriptor either stores the value or raises before writing, leaving
the pet unchanged. -/
def Pet.assignAge (p : Pet) (value : Int) : Pet × Option PyError :=
  match Age.set value with
  | .ok v => ({ p with age := v }, none)
  | .error e => (p, some e)

/-- State of a `Client` instance (lines 85-99). -/
structure Client where
  name : String
  phone : String
  pets : List Pet
deriving Repr, DecidableEq

/-- Constructor `Client.__init__` (lines 90-93): assigns `name`, then
`phone` through the descriptors (each may raise), then initialises
`pets = []`. -/
def Client.new (name : String) (phone : String) : Except PyError Client := do
  let n ← Name.set name
  let p ← Phone.set phone
  .ok ⟨n, p, []⟩

/-- Method `Client.add_pet` (lines 95-96): appends to the owned list. -/
def Client.add_pet (c : Client) (pet : Pet) : Client :=
  { c with pets := c.pets ++ [pet] }

/-- Assignment `client.name = value` on an existing instance. -/
def Client.assignName (c : Client) (value : String) : Client × Option PyError :=
  match Name.set value with
  | .ok v => ({ c with name := v }, none)
  | .error e => (c, some e)

/-- Assignment `client.phone = value` on an existing instance. -/
def Client.assignPhone (c : Client) (value : String) : Client × Option PyError :=
  match Phone.set value with
  | .ok v => ({ c with phone := v }, none)
  | .error e => (c, some e)

/-- Tree of pickleable values: the object graph the program persists is
built from strings, integers, `None`, lists and fixed-shape records,
all representable here.  `pickle.dump`/`pickle.load` are modelled by an
explicit encoding into this tree and its decoder. -/
inductive PValue where
  | pstr (s : String)
  | pint (n : Int)
  | pnone
  | plist (xs : List PValue)
deriving Repr

/-- Encode an optional date string. -/
def encodeOptStr : Option String → PValue
  | none => .pnone
  | some s => .pstr s

/-- Decode an optional date string. -/
def decodeOptStr : PValue → Option (Option String)
  | .pnone => some none
  | .pstr s => some (some s)
  | _ => none

/-- Encode one past-appointment record. -/
def encodeRecord (r : AppointmentRecord) : PValue :=
  .plist [encodeOptStr r.date, .pstr r.comment]

/-- Decode one past-appointment record. -/
def decodeRecord : PValue → Option AppointmentRecord
  | .plist [d, .pstr c] =>
    match decodeOptStr d with
    | some dd => some { date := dd, comment := c }
    | none => none
  | _ => none

/-- Decode every element of a list, failing if any element fails, as
`pickle.load` reconstructs the whole graph or raises. -/
def optionMapAll {α β : Type} (f : α → Option β) : List α → Option (List β)
  | [] => some []
  | a :: l =>
    match f a, optionMapAll f l with
    | some b, some bs => some (b :: bs)
    | _, _ => none

/-- Encode a pet with all its fields. -/
def encodePet (p : Pet) : PValue :=
  .plist [.pstr p.name, .pint p.age, encodeOptStr p.scheduled_appointment,
          .plist (p.past_appointments.map encodeRecord)]

/-- Decode a pet. -/
def decodePet : PValue → Option Pet
  | .plist [.pstr n, .pint a, s, .plist rs] =>
    match decodeOptStr s, optionMapAll decodeRecord rs with
    | some sa, some recs => some ⟨n, a, sa, recs⟩
    | _, _ => none
  | _ => none

/-- Encode a client with all its pets. -/
def encodeClient (c : Client) : PValue :=
  .plist [.pstr c.name, .pstr c.phone, .plist (c.pets.map encodePet)]

/-- Decode a client. -/
def decodeClient : PValue → Option Client
  | .plist [.pstr n, .pstr p, .plist ps] =>
    match optionMapAll decodePet ps with
    | some pets => some ⟨n, p, pets⟩
    | none => none
  | _ => none

/-- Model of `pickle.dump(self.clients, f)`: the serialized blob. -/
def pickleDumps (cs : List Client) : PValue :=
  .plist (cs.map encodeClient)

/-- Model of `pickle.load(f)`: reconstruct the client list or fail. -/
def pickleLoads : PValue → Option (List Client)
  | .plist cs => optionMapAll decodeClient cs
  | _ => none

/-- State of a `Database` instance (lines 102-132). -/
structure Database where
  filename : String
  clients : List Client
deriving Repr, DecidableEq

/-- Method `Database.load` (lines 109-115).  The argument is the content
of the file at `self.filename`: `none` when the file does not exist
(`FileNotFoundError`, caught, clients set to `[]`), otherwise the
persisted blob.  An undecodable blob makes `pickle.load` raise, an
exception the method does not catch, modelled by the `none` result. -/
def Database.load (db : Database) (file : Option PValue) : Option Database :=
  match file with
  | none => some { db with clients := [] }
  | some v =>
    match pickleLoads v with
    | some cs => some { db with clients := cs }
    | none => none

/-- Method `Database.save` (lines 126-129): the blob written to the file
at `self.filename`. -/
def Database.save (db : Database) : PValue :=
  pickleDumps db.clients

/-- Method `Database.add_client` (lines 117-118). -/
def Database.add_client (db : Database) (c : Client) : Database :=
  { db with clients := db.clients ++ [c] }

/-- Method `Database.find_clients_by_name` (lines 120-121): keeps the
clients whose lowercased name equals the lowercased query. -/
def Database.find_clients_by_name (db : Database) (name : String) : List Client :=
  db.clients.filter (fun c => pyLower c.name == pyLower name)

/-- Method `Database.find_clients_by_phone` (lines 123-124). -/
def Database.find_clients_by_phone (db : Database) (phone : String) : List Client :=
  db.clients.filter (fun c => c.phone == phone)

/-- Characterisation of a successful name assignment. -/
theorem name_set_ok_iff (t : String) : Name.set t = .ok t ↔ 2 ≤ (pyStrip t).length := by
  unfold Name.set
  by_cases h : (pyStrip t).length < 2
  · rw [if_pos h]
    constructor
    · intro hc
      exact absurd hc (by simp)
    · intro hge
      exact absurd hge (by omega)
  · rw [if_neg h]
    simp
    omega

/-- Characterisation of a successful age assignment. -/
theorem age_set_ok_iff (a : Int) : Age.set a = .ok a ↔ 1 ≤ a ∧ a ≤ 99 := by
  unfold Age.set
  by_cases h : 0 < a ∧ a < 100
  · simp [h]
    omega
  · simp [h]
    omega

/-- Characterisation of a successful phone assignment. -/
theorem phone_set_ok_iff (q : String) :
    Phone.set q = .ok q ↔ (q.data.all Char.isDigit ∧ (q.length = 10 ∨ q.length = 11)) := by
  unfold Phone.set pyIsDigit
  by_cases hd : q.data.all Char.isDigit = true
  · by_cases hl : 10 ≤ q.length ∧ q.length ≤ 11
    · have hne : (q.length != 0) = true := by
        simp only [bne_iff_ne, ne_eq]
        omega
      simp [hd, hl, hne]
      omega
    · simp [hd, hl]
      omega
  · simp [hd]

/-- Decoding inverts encoding elementwise over a list. -/
theorem optionMapAll_encode {α β : Type} (enc : α → β) (dec : β → Option α)
    (h : ∀ a, dec (enc a) = some a) :
    ∀ l : List α, optionMapAll dec (l.map enc) = some l := by
  intro l
  induction l with
  | nil => rfl
  | cons a l ih => simp [optionMapAll, h a, ih]

/-- Decoding inverts encoding for optional date strings. -/
theorem decodeOptStr_encode (d : Option String) :
    decodeOptStr (encodeOptStr d) = some d := by
  cases d <;> rfl

/-- Decoding inverts encoding for past-appointment records. -/
theorem decodeRecord_encode (r : AppointmentRecord) :
    decodeRecord (encodeRecord r) = some r := by
  cases r with
  | mk d c => cases d <;> rfl

/-- Decoding inverts encoding for pets. -/
theorem decodePet_encode (p : Pet) :
    decodePet (encodePet p) = some p := by
  cases p with
  | mk n a s past =>
    cases s <;>
      simp [encodePet, decodePet, encodeOptStr, decodeOptStr,
            optionMapAll_encode encodeRecord decodeRecord decodeRecord_encode]

/-- Decoding inverts encoding for clients. -/
theorem decodeClient_encode (c : Client) :
    decodeClient (encodeClient c) = some c := by
  cases c with
  | mk n p pets =>
    simp [encodeClient, decodeClient,
          optionMapAll_encode encodePet decodePet decodePet_encode]

/-- Unpickling inverts pickling for the full client list. -/
theorem pickleLoads_dumps (cs : List Client) :
    pickleLoads (pickleDumps cs) = some cs := by
  simp [pickleLoads, pickleDumps,
        optionMapAll_encode encodeClient decodeClient decodeClient_encode]

/-- Claim C1: for a pet with a scheduled appointment `d`, completing the
appointment with a comment appends exactly the record with date `d` and
that comment to the history (so the history is the old one followed by
the new record, its length grows by one, earlier records unchanged and
in order) and sets the scheduled appointment to null. -/
theorem pet_complete_scheduled (p : Pet) (d : String) (comment : String)
    (h : p.scheduled_appointment = some d) :
    (p.complete_appointment comment).past_appointments
      = p.past_appointments ++ [{ date := some d, comment := comment }] ∧
    (p.complete_appointment comment).past_appointments.length
      = p.past_appointments.length + 1 ∧
    (p.complete_appointment comment).scheduled_appointment = none := by
  refine ⟨?_, ?_, rfl⟩
  · simp [Pet.complete_appointment, h]
  · simp [Pet.complete_appointment]

/-- Concrete instance of `pet_complete_scheduled`. -/
theorem pet_complete_scheduled_witness :
    ((Pet.mk "Rex" 3 (some "2024-05-01") []).complete_appointment "healthy").past_appointments
      = [{ date := some "2024-05-01", comment := "healthy" }] ∧
    ((Pet.mk "Rex" 3 (some "2024-05-01") []).complete_appointment "healthy").scheduled_appointment
      = none :=
  ⟨(pet_complete_scheduled (Pet.mk "Rex" 3 (some "2024-05-01") []) "2024-05-01" "healthy" rfl).1,
   (pet_complete_scheduled (Pet.mk "Rex" 3 (some "2024-05-01") []) "2024-05-01" "healthy" rfl).2.2⟩

/-- Claim C2: scheduling a date on a pet that already has a scheduled
appointment raises the conflict error and leaves the pet, including its
original scheduled appointment, unchanged. -/
theorem pet_add_appointment_conflict (p : Pet) (d : String) (date : String)
    (h : p.scheduled_appointment = some d) :
    p.add_appointment date = (p, some (.conflict conflictErrMsg)) := by
  simp [Pet.add_appointment, h]

/-- Concrete instance of `pet_add_appointment_conflict`. -/
theorem pet_add_appointment_conflict_witness :
    (Pet.mk "Rex" 3 (some "2024-05-01") []).add_appointment "2024-06-01"
      = (Pet.mk "Rex" 3 (some "2024-05-01") [], some (.conflict conflictErrMsg)) :=
  pet_add_appointment_conflict (Pet.mk "Rex" 3 (some "2024-05-01") []) "2024-05-01" "2024-06-01" rfl

/-- Claim C3: saving a database and loading the saved blob back succeeds
and reproduces the database, in particular the same ordered client list
with all names, phones, pets, ages and appointment histories. -/
theorem database_save_load_roundtrip (db : Database) :
    db.load (some db.save) = some db := by
  cases db with
  | mk f cs => simp [Database.load, Database.save, pickleLoads_dumps]

/-- Claim C9: loading when the storage file does not exist sets the
client list to the empty list and raises no error. -/
theorem database_load_missing_file (db : Database) :
    db.load none = some { db with clients := [] } := rfl

/-- Claim C10: completing an appointment on a pet with no scheduled
appointment does not raise (the method is total): it appends a record
with a null date and the given comment to the history and leaves the
scheduled appointment null. -/
theorem pet_complete_unscheduled (p : Pet) (comment : String)
    (h : p.scheduled_appointment = none) :
    (p.complete_appointment comment).past_appointments
      = p.past_appointments ++ [{ date := none, comment := comment }] ∧
    (p.complete_appointment comment).scheduled_appointment = none := by
  refine ⟨?_, rfl⟩
  simp [Pet.complete_appointment, h]

/-- Concrete instance of `pet_complete_unscheduled`. -/
theorem pet_complete_unscheduled_witness :
    ((Pet.mk "Rex" 3 none []).complete_appointment "checkup").past_appointments
      = [{ date := none, comment := "checkup" }] :=
  (pet_complete_unscheduled (Pet.mk "Rex" 3 none []) "checkup" rfl).1

/-- A name assignment either stores the value or raises the name
validation error. -/
theorem name_set_cases (t : String) :
    Name.set t = .ok t ∨ Name.set t = .error (.validation nameErrMsg) := by
  by_cases h : (pyStrip t).length < 2
  · right
    unfold Name.set
    rw [if_pos h]
  · left
    unfold Name.set
    rw [if_neg h]

/-- A too-short name is rejected with the name validation error. -/
theorem name_set_error (t : String) (h : (pyStrip t).length < 2) :
    Name.set t = .error (.validation nameErrMsg) := by
  unfold Name.set
  rw [if_pos h]

/-- An out-of-range age is rejected with the age validation error. -/
theorem age_set_error (b : Int) (h : b ≤ 0 ∨ 100 ≤ b) :
    Age.set b = .error (.validation ageErrMsg) := by
  unfold Age.set
  rw [if_pos (by omega)]

/-- A phone that is not all digits of length 10 or 11 is rejected with
the phone validation error. -/
theorem phone_set_error (q : String)
    (h : ¬ (q.data.all Char.isDigit ∧ (q.length = 10 ∨ q.length = 11))) :
    Phone.set q = .error (.validation phoneErrMsg) := by
  unfold Phone.set
  rw [if_pos]
  by_cases hd : q.data.all Char.isDigit = true
  · right
    intro hc
    exact h ⟨hd, by omega⟩
  · left
    simp [pyIsDigit, hd]

/-- Client construction propagates a name validation failure. -/
theorem client_new_name_error (n p : String)
    (h : Name.set n = .error (.validation nameErrMsg)) :
    Client.new n p = .error (.validation nameErrMsg) := by
  unfold Client.new
  rw [h]
  rfl

/-- Client construction with a valid name propagates a phone validation
failure, so an invalid phone always yields a validation error. -/
theorem client_new_phone_error (n p : String)
    (hp : Phone.set p = .error (.validation phoneErrMsg)) :
    ∃ m, Client.new n p = .error (.validation m) := by
  rcases name_set_cases n with hn | hn
  · refine ⟨phoneErrMsg, ?_⟩
    unfold Client.new
    rw [hn, hp]
    rfl
  · refine ⟨nameErrMsg, ?_⟩
    unfold Client.new
    rw [hn]
    rfl

/-- Pet construction propagates a name validation failure. -/
theorem pet_new_name_error (n : String) (a : Int)
    (h : Name.set n = .error (.validation nameErrMsg)) :
    Pet.new n a = .error (.validation nameErrMsg) := by
  unfold Pet.new
  rw [h]
  rfl

/-- Pet construction with an invalid age always yields a validation
error (the age error when the name passed, the name error otherwise). -/
theorem pet_new_age_error (n : String) (a : Int)
    (ha : Age.set a = .error (.validation ageErrMsg)) :
    ∃ m, Pet.new n a = .error (.validation m) := by
  rcases name_set_cases n with hn | hn
  · refine ⟨ageErrMsg, ?_⟩
    unfold Pet.new
    rw [hn, ha]
    rfl
  · refine ⟨nameErrMsg, ?_⟩
    unfold Pet.new
    rw [hn]
    rfl

/-- Claim C4: a phone assignment succeeds exactly when the value is an
all-digit string of length 10 or 11; any other string is rejected with
the phone validation error, and constructing a client with such a phone
fails with a validation error. -/
theorem phone_validation (p : String) (n : String)
    (h : ¬ (p.data.all Char.isDigit ∧ (p.length = 10 ∨ p.length = 11))) :
    Phone.set p = .error (.validation phoneErrMsg) ∧
    (∃ m, Client.new n p = .error (.validation m)) ∧
    ∀ q : String,
      Phone.set q = .ok q ↔ (q.data.all Char.isDigit ∧ (q.length = 10 ∨ q.length = 11)) :=
  ⟨phone_set_error p h, client_new_phone_error n p (phone_set_error p h), phone_set_ok_iff⟩

/-- Concrete instance of `phone_validation`: the spec example
Client with phone 12345 is rejected. -/
theorem phone_validation_witness :
    Phone.set "12345" = .error (.validation phoneErrMsg) :=
  (phone_validation "12345" "Anna" (by decide)).1

/-- Claim C5: an age assignment succeeds exactly when the value is an
integer between 1 and 99; an age at most 0 or at least 100 is rejected
with the age validation error, and constructing a pet with such an age
fails with a validation error. -/
theorem age_validation (a : Int) (n : String) (h : a ≤ 0 ∨ 100 ≤ a) :
    Age.set a = .error (.validation ageErrMsg) ∧
    (∃ m, Pet.new n a = .error (.validation m)) ∧
    ∀ b : Int, Age.set b = .ok b ↔ 1 ≤ b ∧ b ≤ 99 :=
  ⟨age_set_error a h, pet_new_age_error n a (age_set_error a h),
   fun b => age_set_ok_iff b⟩

/-- Concrete instance of `age_validation` at age 100. -/
theorem age_validation_witness :
    Age.set 100 = .error (.validation ageErrMsg) :=
  (age_validation 100 "Rex" (Or.inr (by decide))).1

/-- Claim C6: a name assignment succeeds exactly when the trimmed value
has length at least 2; a string with trimmed length below 2 is rejected
with the name validation error, and constructing a client or a pet with
such a name fails with that validation error. -/
theorem name_validation (s : String) (phone : String) (age : Int)
    (h : (pyStrip s).length < 2) :
    Name.set s = .error (.validation nameErrMsg) ∧
    Client.new s phone = .error (.validation nameErrMsg) ∧
    Pet.new s age = .error (.validation nameErrMsg) ∧
    ∀ t : String, Name.set t = .ok t ↔ 2 ≤ (pyStrip t).length :=
  ⟨name_set_error s h, client_new_name_error s phone (name_set_error s h),
   pet_new_name_error s age (name_set_error s h), fun t => name_set_ok_iff t⟩

/-- Concrete instance of `name_validation` at the one-character name A. -/
theorem name_validation_witness :
    Name.set "A" = .error (.validation nameErrMsg) ∧
    Client.new "A" "0123456789" = .error (.validation nameErrMsg) :=
  ⟨(name_validation "A" "0123456789" 3 (by decide)).1,
   (name_validation "A" "0123456789" 3 (by decide)).2.1⟩

/-- Claim C7: the name search returns exactly the clients whose
lowercased name equals the lowercased query, kept in store order; hence
two queries equal up to lowercasing return identical result lists. -/
theorem find_by_name_case_insensitive (db : Database) (q1 q2 : String)
    (h : pyLower q1 = pyLower q2) :
    (∀ q : String, db.find_clients_by_name q
        = db.clients.filter (fun c => pyLower c.name == pyLower q)) ∧
    db.find_clients_by_name q1 = db.find_clients_by_name q2 := by
  refine ⟨fun q => rfl, ?_⟩
  simp only [Database.find_clients_by_name, h]

/-- Concrete instance of `find_by_name_case_insensitive` on the spec
example queries Anna and ANNA. -/
theorem find_by_name_case_insensitive_witness :
    (Database.mk "database.pkl" [Client.mk "Anna" "0123456789" []]).find_clients_by_name "Anna"
      = (Database.mk "database.pkl" [Client.mk "Anna" "0123456789" []]).find_clients_by_name "ANNA" :=
  (find_by_name_case_insensitive
    (Database.mk "database.pkl" [Client.mk "Anna" "0123456789" []]) "Anna" "ANNA" (by decide)).2

/-- Claim C8: a field assignment that fails validation raises the error
and leaves the previously stored state untouched, for every validated
field of pets and clients. -/
theorem rejected_assignment_preserves_state
    (p : Pet) (c : Client) (s : String) (a : Int) (ph : String)
    (hs : (pyStrip s).length < 2) (ha : a ≤ 0 ∨ 100 ≤ a)
    (hph : ¬ (ph.data.all Char.isDigit ∧ (ph.length = 10 ∨ ph.length = 11))) :
    p.assignName s = (p, some (.validation nameErrMsg)) ∧
    p.assignAge a = (p, some (.validation ageErrMsg)) ∧
    c.assignName s = (c, some (.validation nameErrMsg)) ∧
    c.assignPhone ph = (c, some (.validation phoneErrMsg)) := by
  refine ⟨?_, ?_, ?_, ?_⟩
  · simp [Pet.assignName, name_set_error s hs]
  · simp [Pet.assignAge, age_set_error a ha]
  · simp [Client.assignName, name_set_error s hs]
  · simp [Client.assignPhone, phone_set_error ph hph]

/-- Concrete instance of `rejected_assignment_preserves_state`. -/
theorem rejected_assignment_preserves_state_witness :
    (Pet.mk "Rex" 3 none []).assignName "A"
      = (Pet.mk "Rex" 3 none [], some (.validation nameErrMsg)) ∧
    (Pet.mk "Rex" 3 none []).assignAge 0
      = (Pet.mk "Rex" 3 none [], some (.validation ageErrMsg)) ∧
    (Client.mk "Anna" "0123456789" []).assignName "A"
      = (Client.mk "Anna" "0123456789" [], some (.validation nameErrMsg)) ∧
    (Client.mk "Anna" "0123456789" []).assignPhone "12345"
      = (Client.mk "Anna" "0123456789" [], some (.validation phoneErrMsg)) :=
  rejected_assignment_preserves_state (Pet.mk "Rex" 3 none [])
    (Client.mk "Anna" "0123456789" []) "A" 0 "12345"
    (by decide) (Or.inl (by decide)) (by decide)
